import Mathlib

/-!
A shallow embedding of `src/recsys/recsys.py` (class `SocRecSys`, an mrjob
three-step map-reduce job) and proofs about it.

Conventions of the embedding:
* Python exceptions are modelled by `Except PyErr`; a mapper or reducer that
  raises aborts the whole run with that error.
* Python floats are modelled by `ℚ` (every arithmetic operation the job
  performs on the values it actually sees is exact).
* mrjob passthrough options carry the raw optparse value: an option declared
  without a `type` keeps its command-line string, and its default is used
  verbatim.  This is why `options.avg` defaults to the *string* "3" and
  `options.topk` defaults to the *int* 25, exactly as in `configure_options`.
* The map-reduce runtime is modelled explicitly: a map stage concatenates the
  per-record emissions in record order; a reduce stage groups the stream by
  key and runs the reducer once per key.  `runReduceW` additionally takes a
  schedule (a reordering of the key list and of each key's value list) so
  that the nondeterminism of a parallel shuffle can be quantified over.
-/

namespace RecSys

/-- The Python exception classes that can be raised by the job's own code. -/
inductive PyErr where
  | typeError : PyErr
  | valueError : PyErr
deriving DecidableEq

/-- An optparse option value: either a genuine Python int (only a default
declared as an int literal can produce one) or a raw command-line string. -/
inductive PyVal where
  | pyInt (n : Int) : PyVal
  | pyStr (s : String) : PyVal
deriving DecidableEq

/-- The two passthrough options of `SocRecSys`. -/
structure Options where
  avg : PyVal
  topk : PyVal
deriving DecidableEq

/-- `configure_options`: `--avge` has `default='3'` (a string) and no type,
so its value is always a string; `--topk` has `default=25` (an int) and no
type, so a command-line value is a string while the default is the int 25. -/
def configure_options (avgArg : Option String) (topkArg : Option String) : Options :=
  { avg := .pyStr (avgArg.getD "3")
    topk := match topkArg with
      | some t => .pyStr t
      | none => .pyInt 25 }

/-- The options produced when neither flag is given on the command line. -/
def defaultOptions : Options := configure_options none none

/-- `line.split('\t')` on the character list: split on tab, keeping empty
fields, exactly like Python's `str.split` with an explicit separator. -/
def splitTab : List Char → List (List Char)
  | [] => [[]]
  | c :: cs =>
    if c = '\t' then [] :: splitTab cs
    else
      match splitTab cs with
      | f :: rest => (c :: f) :: rest
      | [] => [[c]]

/-- The tab-separated fields of a line: `parts = line.split('\t')`. -/
def fields (line : String) : List String :=
  (splitTab line.toList).map (fun cs => String.mk cs)

/-- Python's `str.strip()`: remove leading and trailing whitespace. -/
def pyStrip (s : String) : String :=
  String.mk (((s.toList.dropWhile Char.isWhitespace).reverse.dropWhile
    Char.isWhitespace).reverse)

/-- Python's `int(s)` on an already-stripped character list: an optional
sign followed by one or more digits; anything else raises ValueError
(modelled as `none`). -/
def parsePyIntChars : List Char → Option Int
  | [] => none
  | c :: cs =>
    let signed : Int × List Char :=
      if c = '-' then (-1, cs) else if c = '+' then (1, cs) else (1, c :: cs)
    if signed.2 ≠ [] ∧ signed.2.all Char.isDigit then
      some (signed.1 * (signed.2.foldl (fun a d => 10 * a + ((d.toNat : Int) - 48)) 0))
    else
      none

/-- Python's `int(s)` on a string: strips whitespace, then parses. -/
def parsePyInt (s : String) : Option Int :=
  parsePyIntChars (((s.toList.dropWhile Char.isWhitespace).reverse.dropWhile
    Char.isWhitespace).reverse)

/-- A value emitted by `inputmap`: either the 1-tuple `(myid,)` marking a
truster, or the 2-tuple `(objid, rat)` carrying a rating.  `joinred`
distinguishes the two by tuple length. -/
inductive Val where
  | tmark (uid : String) : Val
  | trat (objid : String) (rat : Int) : Val
deriving DecidableEq

/-- `inputmap`: classify a raw line by its tab-delimited field count.
8 fields: a rating row, emit `(uid, (objid, rat))` with `rat = int(parts[2])`
(which raises ValueError on a non-integer).  4 fields: a trust row, emit
`(otherid, (myid,))` only when `int(parts[2]) > 0`.  Any other field count:
emit nothing (`pass`). -/
def inputmap (line : String) : Except PyErr (List (String × Val)) :=
  match fields line with
  | [p0, p1, p2, _, _, _, _, _] =>
    match parsePyInt p2 with
    | none => .error .valueError
    | some rat => .ok [(pyStrip p1, .trat (pyStrip p0) rat)]
  | [q0, q1, q2, _] =>
    match parsePyInt q2 with
    | none => .error .valueError
    | some value =>
      if 0 < value then .ok [(pyStrip q1, .tmark (pyStrip q0))] else .ok []
  | _ => .ok []

/-- The truster ids among a key's grouped values, in arrival order
(the `tusers` list built by `joinred`). -/
def trustersOf (vals : List Val) : List String :=
  vals.filterMap fun v =>
    match v with
    | .tmark u => some u
    | .trat _ _ => none

/-- The rating pairs among a key's grouped values, in arrival order
(the `ratobjs` list built by `joinred`). -/
def ratingsOf (vals : List Val) : List (String × Int) :=
  vals.filterMap fun v =>
    match v with
    | .tmark _ => none
    | .trat o r => some (o, r)

/-- The first loop of `joinred`: partition the values into `tusers` and
`ratobjs` by appending each value to the appropriate accumulator. -/
def joinredLoop (tusers : List String) (ratobjs : List (String × Int)) :
    List Val → List String × List (String × Int)
  | [] => (tusers, ratobjs)
  | .tmark u :: rest => joinredLoop (tusers ++ [u]) ratobjs rest
  | .trat o r :: rest => joinredLoop tusers (ratobjs ++ [(o, r)]) rest

/-- `joinred`: partition the grouped values, then for each rating pair and
each truster emit `((uid, objid), rat)`. -/
def joinred (_key : String) (vals : List Val) : List ((String × String) × Int) :=
  let parts := joinredLoop [] [] vals
  parts.2.flatMap fun or => parts.1.map fun uid => ((uid, or.1), or.2)

/-- Python 2 `s + options.avg` where `s` is a float: adding an int works,
adding a str raises TypeError. -/
def pyAddFloat (s : ℚ) : PyVal → Except PyErr ℚ
  | .pyInt n => .ok (s + n)
  | .pyStr _ => .error .typeError

/-- `sumred`: sum the grouped ratings into the float `s`, count them in `n`,
and emit `(key, (s + options.avg) / float(n + 1))`.  With the default
configuration `options.avg` is the string "3", so the addition raises. -/
def sumred (opts : Options) (key : String × String) (vals : List Int) :
    Except PyErr (List ((String × String) × ℚ)) :=
  let s : ℚ := vals.foldl (fun a v => a + (v : ℚ)) 0
  let n : Nat := vals.length
  match pyAddFloat s opts.avg with
  | .error e => .error e
  | .ok t => .ok [(key, t / ((n : ℚ) + 1))]

/-- `rowgroupmap`: `yield key[0], (key[1], val)`. -/
def rowgroupmap (p : (String × String) × ℚ) : String × (String × ℚ) :=
  (p.1.1, (p.1.2, p.2))

/-- The call `sorted(vals, key=operator.itemgetter(1), <kw>=True)` from
`topkoutput`.  Python 2's `sorted` accepts the keywords `cmp`, `key` and
`reverse`; any other keyword name raises TypeError.  The source passes
`reversed`, which is not one of them. -/
def pySorted (kw : String) (vals : List (String × ℚ)) :
    Except PyErr (List (String × ℚ)) :=
  if kw = "reverse" then
    .ok (vals.mergeSort fun a b => decide (b.2 ≤ a.2))
  else
    .error .typeError

/-- Python 2 evaluation of `xrange(min(options.topk, len(vals)))`: with an
int topk this is the usual truncation (a negative topk gives an empty
range); with a str topk Python 2 orders every int below every str, so `min`
returns `len(vals)` and nothing is truncated. -/
def pyTruncCount : PyVal → Nat → Nat
  | .pyInt k, n => (min k (n : Int)).toNat
  | .pyStr _, n => n

/-- `topkoutput`: sort the grouped `(objid, score)` pairs — a call that
raises TypeError because of the misspelled `reversed` keyword — then emit
the first `min(topk, len(vals))` of them under the user key. -/
def topkoutput (opts : Options) (key : String) (vals : List (String × ℚ)) :
    Except PyErr (List (String × List (String × ℚ))) :=
  match pySorted "reversed" vals with
  | .error e => .error e
  | .ok svals => .ok [(key, svals.take (pyTruncCount opts.topk svals.length))]

/-- A map stage: run the mapper on each record in order, concatenating the
emissions; a raised exception aborts the stage. -/
def mapStage (f : α → Except PyErr (List β)) : List α → Except PyErr (List β)
  | [] => .ok []
  | x :: xs =>
    match f x with
    | .error e => .error e
    | .ok ys =>
      match mapStage f xs with
      | .error e => .error e
      | .ok zs => .ok (ys ++ zs)

/-- The distinct keys of a keyed stream (the reducers that will run). -/
def keysOf [DecidableEq κ] (kvs : List (κ × α)) : List κ :=
  (kvs.map Prod.fst).dedup

/-- The grouped values for one key, in stream order. -/
def valuesFor [DecidableEq κ] (kvs : List (κ × α)) (k : κ) : List α :=
  kvs.filterMap fun p => if p.1 = k then some p.2 else none

/-- A reduce stage under a schedule: `kp` reorders the key list and `vp`
reorders each key's value list (a parallel shuffle guarantees only the
multiset, not the order); the reducer runs once per key and the emissions
are concatenated. -/
def runReduceW [DecidableEq κ] (kp : List κ → List κ) (vp : κ → List α → List α)
    (red : κ → List α → Except PyErr (List β)) (kvs : List (κ × α)) :
    Except PyErr (List β) :=
  mapStage (fun k => red k (vp k (valuesFor kvs k))) (kp (keysOf kvs))

/-- A reduce stage under the canonical schedule. -/
def runReduce [DecidableEq κ] (red : κ → List α → Except PyErr (List β))
    (kvs : List (κ × α)) : Except PyErr (List β) :=
  runReduceW id (fun _ => id) red kvs

/-- The first step (mapper `inputmap`, reducer `joinred`) end to end. -/
def stage1 (lines : List String) : Except PyErr (List ((String × String) × Int)) :=
  match mapStage inputmap lines with
  | .error e => .error e
  | .ok kv1 => runReduce (fun k vs => .ok (joinred k vs)) kv1

/-- The full three-step pipeline of `steps`, under explicit schedules for
the three reduce stages. -/
def pipelineRunW
    (kp1 : List String → List String) (vp1 : String → List Val → List Val)
    (kp2 : List (String × String) → List (String × String))
    (vp2 : String × String → List Int → List Int)
    (kp3 : List String → List String)
    (vp3 : String → List (String × ℚ) → List (String × ℚ))
    (opts : Options) (lines : List String) :
    Except PyErr (List (String × List (String × ℚ))) :=
  match mapStage inputmap lines with
  | .error e => .error e
  | .ok kv1 =>
    match runReduceW kp1 vp1 (fun k vs => .ok (joinred k vs)) kv1 with
    | .error e => .error e
    | .ok kv2 =>
      match runReduceW kp2 vp2 (sumred opts) kv2 with
      | .error e => .error e
      | .ok kv3 => runReduceW kp3 vp3 (topkoutput opts) (kv3.map rowgroupmap)

/-- The full pipeline under the canonical schedule. -/
def pipelineRun (opts : Options) (lines : List String) :
    Except PyErr (List (String × List (String × ℚ))) :=
  pipelineRunW id (fun _ => id) id (fun _ => id) id (fun _ => id) opts lines

/-! ### Helper lemmas -/

theorem joinredLoop_eq (vals : List Val) :
    ∀ tusers ratobjs, joinredLoop tusers ratobjs vals =
      (tusers ++ trustersOf vals, ratobjs ++ ratingsOf vals) := by
  induction vals with
  | nil => intro tusers ratobjs; simp [joinredLoop, trustersOf, ratingsOf]
  | cons v rest ih =>
    intro tusers ratobjs
    cases v with
    | tmark u =>
      simp [joinredLoop, trustersOf, ratingsOf, List.filterMap_cons, ih]
    | trat o r =>
      simp [joinredLoop, trustersOf, ratingsOf, List.filterMap_cons, ih]

theorem joinred_eq (key : String) (vals : List Val) :
    joinred key vals =
      (ratingsOf vals).flatMap fun or =>
        (trustersOf vals).map fun uid => ((uid, or.1), or.2) := by
  simp [joinred, joinredLoop_eq]

theorem length_flatMap_map (l : List α) (m : List β) (g : α → β → γ) :
    (l.flatMap fun x => m.map fun y => g x y).length = l.length * m.length := by
  induction l with
  | nil => simp
  | cons x xs ih => simp [List.flatMap_cons, ih, Nat.succ_mul, Nat.add_comm]

theorem joinred_length (key : String) (vals : List Val) :
    (joinred key vals).length = (ratingsOf vals).length * (trustersOf vals).length := by
  rw [joinred_eq]
  exact length_flatMap_map _ _ _

theorem joinred_eq_nil_iff (key : String) (vals : List Val) :
    joinred key vals = [] ↔ ratingsOf vals = [] ∨ trustersOf vals = [] := by
  rw [← List.length_eq_zero, joinred_length, Nat.mul_eq_zero,
    List.length_eq_zero, List.length_eq_zero]

theorem trustersOf_perm {vs vs' : List Val} (h : vs.Perm vs') :
    (trustersOf vs).Perm (trustersOf vs') :=
  h.filterMap _

theorem ratingsOf_perm {vs vs' : List Val} (h : vs.Perm vs') :
    (ratingsOf vs).Perm (ratingsOf vs') :=
  h.filterMap _

theorem joinred_eq_nil_iff_of_perm (key key' : String) {vs vs' : List Val}
    (h : vs.Perm vs') : joinred key vs = [] ↔ joinred key' vs' = [] := by
  rw [joinred_eq_nil_iff, joinred_eq_nil_iff,
    ← List.length_eq_zero, ← List.length_eq_zero (l := trustersOf vs),
    ← List.length_eq_zero (l := ratingsOf vs'),
    ← List.length_eq_zero (l := trustersOf vs'),
    (ratingsOf_perm h).length_eq, (trustersOf_perm h).length_eq]

theorem mapStage_pureList (g : α → List β) (xs : List α) :
    mapStage (fun x => .ok (g x)) xs = .ok (xs.flatMap g) := by
  induction xs with
  | nil => rfl
  | cons x rest ih => simp [mapStage, ih, List.flatMap_cons]

theorem mapStage_error_head (f : α → Except PyErr (List β)) (e : PyErr)
    (hf : ∀ x, f x = .error e) {xs : List α} (hxs : xs ≠ []) :
    mapStage f xs = .error e := by
  cases xs with
  | nil => exact absurd rfl hxs
  | cons x rest => simp [mapStage, hf x]

theorem mapStage_skip_middle (f : α → Except PyErr (List β)) (b : α)
    (hb : f b = .ok []) (pre post : List α) :
    mapStage f (pre ++ b :: post) = mapStage f (pre ++ post) := by
  induction pre with
  | nil =>
    simp only [List.nil_append, mapStage, hb]
    cases mapStage f post <;> simp
  | cons a rest ih =>
    simp only [List.cons_append, mapStage]
    rw [show rest.append (b :: post) = rest ++ b :: post from rfl,
      show rest.append post = rest ++ post from rfl, ih]

theorem keysOf_eq_nil [DecidableEq κ] (kvs : List (κ × α)) :
    keysOf kvs = [] ↔ kvs = [] := by
  rw [keysOf, List.dedup_eq_nil, List.map_eq_nil_iff]

theorem mapStage_ok_of (f : α → Except PyErr (List β)) (g : α → List β)
    (hf : ∀ x, f x = .ok (g x)) (xs : List α) :
    mapStage f xs = .ok (xs.flatMap g) := by
  induction xs with
  | nil => rfl
  | cons x rest ih => simp [mapStage, hf x, ih, List.flatMap_cons]

theorem runReduceW_ok_of [DecidableEq κ] (kp : List κ → List κ)
    (vp : κ → List α → List α) (red : κ → List α → Except PyErr (List β))
    (g : κ → List α → List β) (hred : ∀ k vs, red k vs = .ok (g k vs))
    (kvs : List (κ × α)) :
    runReduceW kp vp red kvs =
      .ok ((kp (keysOf kvs)).flatMap fun k => g k (vp k (valuesFor kvs k))) := by
  unfold runReduceW
  exact mapStage_ok_of _ _ (fun k => hred k _) _

theorem runReduceW_nil [DecidableEq κ] (kp : List κ → List κ)
    (vp : κ → List α → List α) (red : κ → List α → Except PyErr (List β))
    (hkp : ∀ ks, (kp ks).Perm ks) :
    runReduceW kp vp red ([] : List (κ × α)) = .ok [] := by
  unfold runReduceW
  rw [show keysOf ([] : List (κ × α)) = [] from rfl, (hkp []).eq_nil]
  rfl

theorem perm_ne_nil {l l' : List α} (p : l.Perm l') (h : l' ≠ []) : l ≠ [] :=
  fun hl => h ((hl ▸ p : ([] : List α).Perm l').symm.eq_nil)

/-- Emptiness of a scheduled join stage's output stream does not depend on
the schedule: it is equivalent to every reducer's output being empty under
the canonical schedule. -/
theorem joinStream_nil_iff (kp : List String → List String)
    (vp : String → List Val → List Val)
    (hkp : ∀ ks, (kp ks).Perm ks) (hvp : ∀ k vs, (vp k vs).Perm vs)
    (kv1 : List (String × Val)) :
    ((kp (keysOf kv1)).flatMap fun k => joinred k (vp k (valuesFor kv1 k))) = [] ↔
      ∀ k ∈ keysOf kv1, joinred k (valuesFor kv1 k) = [] := by
  rw [List.flatMap_eq_nil_iff]
  constructor
  · intro h k hk
    exact (joinred_eq_nil_iff_of_perm k k (hvp k _)).mp
      (h k ((hkp _).mem_iff.mpr hk))
  · intro h k hk
    exact (joinred_eq_nil_iff_of_perm k k (hvp k _)).mpr
      (h k ((hkp _).mem_iff.mp hk))

theorem sumred_avg_str {opts : Options} {a : String} (ha : opts.avg = .pyStr a)
    (key : String × String) (vals : List Int) :
    sumred opts key vals = .error .typeError := by
  simp [sumred, pyAddFloat, ha]

theorem sumred_avg_int {opts : Options} {n : Int} (ha : opts.avg = .pyInt n)
    (key : String × String) (vals : List Int) :
    sumred opts key vals =
      .ok [(key, ((vals.foldl (fun a v => a + (v : ℚ)) 0) + (n : ℚ)) /
        ((vals.length : ℚ) + 1))] := by
  simp [sumred, pyAddFloat, ha]

theorem topkoutput_err (opts : Options) (key : String) (vals : List (String × ℚ)) :
    topkoutput opts key vals = .error .typeError := rfl

/-! ### Sanity evaluations -/

example : fields "a\tb\tc" = ["a", "b", "c"] := rfl

example : parsePyInt " -42 " = some (-42) := rfl

example : parsePyInt "4x" = none := rfl

example : inputmap "i1\tu1\t4\ts\tc\tm\tt\ts2" = .ok [("u1", .trat "i1" 4)] := rfl

example : inputmap "a\tb\t1\tc" = .ok [("b", .tmark "a")] := rfl

example : inputmap "a\tb\t-1\tc" = .ok [] := rfl

example : inputmap "a\tb\tc\td\te" = .ok [] := rfl

example :
    joinred "u" [.tmark "t1", .trat "o1" 4, .tmark "t2", .trat "o2" 5] =
      [(("t1", "o1"), 4), (("t2", "o1"), 4), (("t1", "o2"), 5), (("t2", "o2"), 5)] := rfl

example : sumred defaultOptions ("t", "i") [4, 5] = .error .typeError := rfl

example : topkoutput defaultOptions "u" [("A", 4)] = .error .typeError := rfl

example : pipelineRun defaultOptions [] = .ok [] := rfl

example :
    pipelineRun defaultOptions ["i1\tu1\t4\ts\tc\tm\tt\ts2", "t\tu1\t1\tc"] =
      .error .typeError := rfl

/-! ### Claim theorems -/

/-- C1: the aggregator should emit, for every non-empty group of contributed
ratings, the score `(sum + priorAvg) / (count + 1)` — in particular 4.0 for
contributions [4, 5] under the default priorAvg.  The code instead raises
TypeError on every group: the `--avge` option defaults to the string "3" and
is never converted, so `s + self.options.avg` adds a float and a str. -/
theorem sumred_default_typeerror :
    (∀ (key : String × String) (vals : List Int),
      sumred defaultOptions key vals = .error .typeError) ∧
    sumred defaultOptions ("t1", "i1") [4, 5] = .error .typeError :=
  ⟨fun _ _ => rfl, rfl⟩

/-- C2: the Top-K selector should emit the first K pairs under the order
score descending, then itemId ascending.  The code instead raises TypeError
on every key: `sorted(vals, key=operator.itemgetter(1), reversed=True)`
passes the keyword `reversed`, which `sorted` does not accept.  Shown both
in general and on the spec's concrete example (A=4.5, B=4.5, C=3.0, D=2.0
with topK=2). -/
theorem topkoutput_always_typeerror :
    (∀ (opts : Options) (key : String) (vals : List (String × ℚ)),
      topkoutput opts key vals = .error .typeError) ∧
    topkoutput { avg := .pyStr "3", topk := .pyInt 2 } "u1"
      [("A", 9 / 2), ("B", 9 / 2), ("C", 3), ("D", 2)] = .error .typeError :=
  ⟨fun _ _ _ => rfl, rfl⟩

/-- C3: for every join key whose grouped values contain the truster markers
T1..Tm and the rating pairs R1..Rn, `joinred` emits exactly n×m joined
contributions — for each rating Rj and each truster Ti, one contribution
keyed (Ti, itemId of Rj) carrying Rj's rating value unmodified. -/
theorem joinred_fanout (key : String) (vals : List Val) :
    joinred key vals =
      ((ratingsOf vals).flatMap fun or =>
        (trustersOf vals).map fun uid => ((uid, or.1), or.2)) ∧
    (joinred key vals).length = (ratingsOf vals).length * (trustersOf vals).length :=
  ⟨joinred_eq key vals, joinred_length key vals⟩

/-- C8: a join key whose grouped values contain only truster markers or only
rating pairs yields zero contributions (and `joinred` is total, so nothing
is raised). -/
theorem joinred_onesided_empty (key : String) (vals : List Val)
    (h : trustersOf vals = [] ∨ ratingsOf vals = []) : joinred key vals = [] :=
  (joinred_eq_nil_iff key vals).mpr h.symm

/-- Witness for C8: a group holding a single rating pair and no truster
markers produces no joined contribution. -/
theorem joinred_onesided_empty_witness :
    joinred "u1" [.trat "i1" 4] = [] :=
  joinred_onesided_empty "u1" [.trat "i1" 4] (Or.inl rfl)

/-- C5 counterexample: the claim says a negative configured topK makes the
pipeline fail at start, before any stage runs.  Configuring `--topk -1`
(which optparse stores as the string "-1") is accepted without any error and
the pipeline runs to normal completion on empty input. -/
theorem config_no_failfast_counterexample :
    configure_options none (some "-1") = { avg := .pyStr "3", topk := .pyStr "-1" } ∧
    pipelineRun (configure_options none (some "-1")) [] = .ok [] :=
  ⟨rfl, rfl⟩

/-- C5 amended: no configuration validation exists.  Every configuration —
a negative topK included — is accepted, and the pipeline starts normally
rather than failing fast (shown by running to completion on empty input
under an arbitrary configuration). -/
theorem pipeline_accepts_any_config (opts : Options) :
    pipelineRun opts [] = .ok [] := rfl

/-- C10: an 8-field rating row is classified using only its first three
fields; two rows agreeing on objectId, userId and rating and differing
arbitrarily in fields 4–8 (status, timestamps, type) yield the same emitted
tuple — the visible flag never filters a rating. -/
theorem inputmap_ignores_tail_fields
    (l1 l2 p0 p1 p2 : String) (r s : List String)
    (h1 : fields l1 = p0 :: p1 :: p2 :: r) (hr : r.length = 5)
    (h2 : fields l2 = p0 :: p1 :: p2 :: s) (hs : s.length = 5) :
    inputmap l1 = inputmap l2 := by
  rcases r with _ | ⟨r3, _ | ⟨r4, _ | ⟨r5, _ | ⟨r6, _ | ⟨r7, _ | ⟨r8, rt⟩⟩⟩⟩⟩⟩ <;>
    simp at hr
  rcases s with _ | ⟨s3, _ | ⟨s4, _ | ⟨s5, _ | ⟨s6, _ | ⟨s7, _ | ⟨s8, st⟩⟩⟩⟩⟩⟩ <;>
    simp at hs
  unfold inputmap
  rw [h1, h2]

/-- Witness for C10: two concrete rating rows sharing (objectId, userId,
rating) but with entirely different status, timestamp and type fields are
classified identically. -/
theorem inputmap_ignores_tail_fields_witness :
    inputmap "i1\tu1\t4\t0\tc1\tm1\tt1\ts1" = inputmap "i1\tu1\t4\t1\tc2\tm2\tt2\ts2" :=
  inputmap_ignores_tail_fields "i1\tu1\t4\t0\tc1\tm1\tt1\ts1"
    "i1\tu1\t4\t1\tc2\tm2\tt2\ts2" "i1" "u1" "4"
    ["0", "c1", "m1", "t1", "s1"] ["1", "c2", "m2", "t2", "s2"]
    rfl rfl rfl rfl

/-- C4 counterexample: the claim says a row with an unparsable or
out-of-range rating/trust value is skipped without aborting.  The code
emits an 8-field row whose rating is 7 (outside 1–5) instead of skipping
it, and raises ValueError — aborting the task — on a 4-field row whose
trust value does not parse as an integer. -/
theorem inputmap_validation_counterexample :
    inputmap "i1\tu1\t7\ts\tc\tm\tt\ts2" = .ok [("u1", .trat "i1" 7)] ∧
    inputmap "a\tb\tx\tc" = .error .valueError :=
  ⟨rfl, rfl⟩

/-- C4 amended: the classifier performs no range validation and no error
recovery.  On an 8-field row it raises ValueError when the rating field
does not parse as an integer, and otherwise emits the rating tuple whatever
the parsed value (1–5 or not); on a 4-field row it raises ValueError when
the trust field does not parse, and otherwise emits the trust marker if and
only if the parsed value is positive (so +2, outside {-1,+1}, is kept). -/
theorem inputmap_parse_behavior :
    (∀ (line p0 p1 p2 : String) (r : List String),
      fields line = p0 :: p1 :: p2 :: r → r.length = 5 →
      (parsePyInt p2 = none → inputmap line = .error .valueError) ∧
      (∀ n : Int, parsePyInt p2 = some n →
        inputmap line = .ok [(pyStrip p1, .trat (pyStrip p0) n)])) ∧
    (∀ (line q0 q1 q2 q3 : String),
      fields line = [q0, q1, q2, q3] →
      (parsePyInt q2 = none → inputmap line = .error .valueError) ∧
      (∀ v : Int, parsePyInt q2 = some v →
        inputmap line =
          if 0 < v then .ok [(pyStrip q1, .tmark (pyStrip q0))] else .ok [])) := by
  constructor
  · intro line p0 p1 p2 r hf hr
    rcases r with _ | ⟨r3, _ | ⟨r4, _ | ⟨r5, _ | ⟨r6, _ | ⟨r7, _ | ⟨r8, rt⟩⟩⟩⟩⟩⟩ <;>
      simp at hr
    constructor
    · intro hp
      unfold inputmap
      rw [hf]
      dsimp only
      rw [hp]
    · intro n hp
      unfold inputmap
      rw [hf]
      dsimp only
      rw [hp]
  · intro line q0 q1 q2 q3 hf
    constructor
    · intro hp
      unfold inputmap
      rw [hf]
      dsimp only
      rw [hp]
    · intro v hp
      unfold inputmap
      rw [hf]
      dsimp only
      rw [hp]

/-- Witness for C4 amended: on a rating row with the out-of-range rating 7
the classifier emits the tuple anyway, and on a trust row with the
unparsable value "x" it raises ValueError. -/
theorem inputmap_parse_behavior_witness :
    inputmap "i1\tu1\t7\ts\tc\tm\tt\ts2" = .ok [(pyStrip "u1", .trat (pyStrip "i1") 7)] ∧
    inputmap "a\tb\tx\tc" = .error .valueError :=
  ⟨(inputmap_parse_behavior.1 "i1\tu1\t7\ts\tc\tm\tt\ts2" "i1" "u1" "7"
      ["s", "c", "m", "t", "s2"] rfl rfl).2 7 (by decide),
    (inputmap_parse_behavior.2 "a\tb\tx\tc" "a" "b" "x" "c" rfl).1 rfl⟩

/-- C6: a line whose tab-delimited field count is neither 8 nor 4 makes the
classifier emit nothing and raise nothing, and inserting such a line
anywhere in the input leaves the whole pipeline's result — hence the output
for every key derived from the other lines — unchanged. -/
theorem malformed_line_dropped (line : String)
    (h8 : (fields line).length ≠ 8) (h4 : (fields line).length ≠ 4) :
    inputmap line = .ok [] ∧
    ∀ (opts : Options) (pre post : List String),
      pipelineRun opts (pre ++ line :: post) = pipelineRun opts (pre ++ post) := by
  have hnil : inputmap line = .ok [] := by
    unfold inputmap
    split
    · rename_i heq
      exact absurd (by rw [heq]; rfl) h8
    · rename_i heq
      exact absurd (by rw [heq]; rfl) h4
    · rfl
  refine ⟨hnil, fun opts pre post => ?_⟩
  unfold pipelineRun pipelineRunW
  rw [mapStage_skip_middle inputmap line hnil pre post]

/-- Witness for C6: a 5-field line is dropped, and appending it after a
well-formed rating row does not change the pipeline's result. -/
theorem malformed_line_dropped_witness :
    inputmap "a\tb\tc\td\te" = .ok [] ∧
    pipelineRun defaultOptions ["i1\tu1\t4\ts\tc\tm\tt\ts2", "a\tb\tc\td\te"] =
      pipelineRun defaultOptions ["i1\tu1\t4\ts\tc\tm\tt\ts2"] :=
  ⟨(malformed_line_dropped "a\tb\tc\td\te" (by decide) (by decide)).1,
    (malformed_line_dropped "a\tb\tc\td\te" (by decide) (by decide)).2
      defaultOptions ["i1\tu1\t4\ts\tc\tm\tt\ts2"] []⟩

/-- C7: a 4-field trust row whose parsed trust value is zero or negative is
dropped by the classifier, and consequently inserting it anywhere in the
input leaves the whole join stage's output unchanged, whatever ratings are
present for the trustee. -/
theorem trust_nonpositive_excluded
    (line q0 q1 q2 q3 : String) (v : Int)
    (hf : fields line = [q0, q1, q2, q3])
    (hp : parsePyInt q2 = some v) (hv : v ≤ 0) :
    inputmap line = .ok [] ∧
    ∀ pre post : List String,
      stage1 (pre ++ line :: post) = stage1 (pre ++ post) := by
  have hnil : inputmap line = .ok [] := by
    unfold inputmap
    rw [hf]
    dsimp only
    rw [hp]
    dsimp only
    rw [if_neg (show ¬ (0 : Int) < v by omega)]
  refine ⟨hnil, fun pre post => ?_⟩
  unfold stage1
  rw [mapStage_skip_middle inputmap line hnil pre post]

/-- Witness for C7: a distrust edge (value -1) towards u1 is dropped and
contributes nothing to the join even though u1 has a rating in the input. -/
theorem trust_nonpositive_excluded_witness :
    inputmap "a\tu1\t-1\tc" = .ok [] ∧
    stage1 ["i1\tu1\t4\ts\tc\tm\tt\ts2", "a\tu1\t-1\tc"] =
      stage1 ["i1\tu1\t4\ts\tc\tm\tt\ts2"] :=
  ⟨(trust_nonpositive_excluded "a\tu1\t-1\tc" "a" "u1" "-1" "c" (-1)
      rfl (by decide) (by decide)).1,
    (trust_nonpositive_excluded "a\tu1\t-1\tc" "a" "u1" "-1" "c" (-1)
      rfl (by decide) (by decide)).2 ["i1\tu1\t4\ts\tc\tm\tt\ts2"] []⟩

theorem runReduceW_error_of [DecidableEq κ] (kp : List κ → List κ)
    (vp : κ → List α → List α) (red : κ → List α → Except PyErr (List β))
    (e : PyErr) (hred : ∀ k vs, red k vs = .error e) {kvs : List (κ × α)}
    (h : kp (keysOf kvs) ≠ []) : runReduceW kp vp red kvs = .error e := by
  unfold runReduceW
  exact mapStage_error_head _ _ (fun k => hred k _) h

theorem length_flatMap_singleton (l : List α) (f : α → β) :
    (l.flatMap fun x => [f x]).length = l.length := by
  induction l with
  | nil => rfl
  | cons x xs ih => simp [List.flatMap_cons, ih]

theorem runReduceW_sumred_ok {opts : Options} {n : Int} (ha : opts.avg = .pyInt n)
    (kp : List (String × String) → List (String × String))
    (vp : String × String → List Int → List Int)
    (J : List ((String × String) × Int)) :
    ∃ K : List ((String × String) × ℚ),
      runReduceW kp vp (sumred opts) J = .ok K ∧
      K.length = (kp (keysOf J)).length := by
  refine ⟨_, runReduceW_ok_of kp vp (sumred opts) _
    (fun k vs => sumred_avg_int ha k vs) J, ?_⟩
  exact length_flatMap_singleton _ _

/-- C9: the three-stage pipeline is deterministic.  A run is parameterized
by the only freedom the map-reduce engine has — the order in which each
reduce stage receives its key list and each key's grouped values (any
permutation of the canonical ones).  Two runs on identical input with
identical configuration produce identical results: the same keys, scores
and per-user ordering (and, where the job raises, the identical error). -/
theorem pipeline_deterministic
    (opts : Options) (lines : List String)
    (kp1 kq1 : List String → List String)
    (vp1 vq1 : String → List Val → List Val)
    (kp2 kq2 : List (String × String) → List (String × String))
    (vp2 vq2 : String × String → List Int → List Int)
    (kp3 kq3 : List String → List String)
    (vp3 vq3 : String → List (String × ℚ) → List (String × ℚ))
    (hkp1 : ∀ ks, (kp1 ks).Perm ks) (hkq1 : ∀ ks, (kq1 ks).Perm ks)
    (hvp1 : ∀ k vs, (vp1 k vs).Perm vs) (hvq1 : ∀ k vs, (vq1 k vs).Perm vs)
    (hkp2 : ∀ ks, (kp2 ks).Perm ks) (hkq2 : ∀ ks, (kq2 ks).Perm ks)
    (hvp2 : ∀ k vs, (vp2 k vs).Perm vs) (hvq2 : ∀ k vs, (vq2 k vs).Perm vs)
    (hkp3 : ∀ ks, (kp3 ks).Perm ks) (hkq3 : ∀ ks, (kq3 ks).Perm ks)
    (hvp3 : ∀ k vs, (vp3 k vs).Perm vs) (hvq3 : ∀ k vs, (vq3 k vs).Perm vs) :
    pipelineRunW kp1 vp1 kp2 vp2 kp3 vp3 opts lines =
      pipelineRunW kq1 vq1 kq2 vq2 kq3 vq3 opts lines := by
  unfold pipelineRunW
  cases hm : mapStage inputmap lines with
  | error e => rfl
  | ok kv1 =>
    dsimp only
    rw [runReduceW_ok_of kp1 vp1 (fun k vs => .ok (joinred k vs))
        (fun k vs => joinred k vs) (fun _ _ => rfl) kv1,
      runReduceW_ok_of kq1 vq1 (fun k vs => .ok (joinred k vs))
        (fun k vs => joinred k vs) (fun _ _ => rfl) kv1]
    dsimp only
    have hE : ((kp1 (keysOf kv1)).flatMap fun k =>
          joinred k (vp1 k (valuesFor kv1 k))) = [] ↔
        ((kq1 (keysOf kv1)).flatMap fun k =>
          joinred k (vq1 k (valuesFor kv1 k))) = [] := by
      rw [joinStream_nil_iff kp1 vp1 hkp1 hvp1 kv1,
        joinStream_nil_iff kq1 vq1 hkq1 hvq1 kv1]
    generalize hg1 : ((kp1 (keysOf kv1)).flatMap fun k =>
      joinred k (vp1 k (valuesFor kv1 k))) = J1 at hE ⊢
    generalize hg2 : ((kq1 (keysOf kv1)).flatMap fun k =>
      joinred k (vq1 k (valuesFor kv1 k))) = J2 at hE ⊢
    by_cases h1 : J1 = []
    · rw [h1, hE.mp h1, runReduceW_nil kp2 vp2 (sumred opts) hkp2,
        runReduceW_nil kq2 vq2 (sumred opts) hkq2]
      dsimp only
      rw [show (([] : List ((String × String) × ℚ)).map rowgroupmap) = []
          from rfl,
        runReduceW_nil kp3 vp3 (topkoutput opts) hkp3,
        runReduceW_nil kq3 vq3 (topkoutput opts) hkq3]
    · have h2 : ¬ J2 = [] := fun h => h1 (hE.mpr h)
      have hK1 : kp2 (keysOf J1) ≠ [] :=
        perm_ne_nil (hkp2 _) fun hnil => h1 ((keysOf_eq_nil _).mp hnil)
      have hK2 : kq2 (keysOf J2) ≠ [] :=
        perm_ne_nil (hkq2 _) fun hnil => h2 ((keysOf_eq_nil _).mp hnil)
      cases ha : opts.avg with
      | pyStr a =>
        rw [runReduceW_error_of kp2 vp2 (sumred opts) .typeError
            (fun k vs => sumred_avg_str ha k vs) hK1,
          runReduceW_error_of kq2 vq2 (sumred opts) .typeError
            (fun k vs => sumred_avg_str ha k vs) hK2]
      | pyInt n =>
        obtain ⟨K1, o1, hl1⟩ := runReduceW_sumred_ok ha kp2 vp2 J1
        obtain ⟨K2, o2, hl2⟩ := runReduceW_sumred_ok ha kq2 vq2 J2
        rw [o1, o2]
        dsimp only
        have m1 : K1.map rowgroupmap ≠ [] := by
          rw [Ne, List.map_eq_nil_iff]
          intro h
          rw [h] at hl1
          exact hK1 (List.eq_nil_of_length_eq_zero hl1.symm)
        have m2 : K2.map rowgroupmap ≠ [] := by
          rw [Ne, List.map_eq_nil_iff]
          intro h
          rw [h] at hl2
          exact hK2 (List.eq_nil_of_length_eq_zero hl2.symm)
        rw [runReduceW_error_of kp3 vp3 (topkoutput opts) .typeError
            (fun k vs => topkoutput_err opts k vs)
            (perm_ne_nil (hkp3 _) fun hnil => m1 ((keysOf_eq_nil _).mp hnil)),
          runReduceW_error_of kq3 vq3 (topkoutput opts) .typeError
            (fun k vs => topkoutput_err opts k vs)
            (perm_ne_nil (hkq3 _) fun hnil => m2 ((keysOf_eq_nil _).mp hnil))]

/-- Witness for C9: on a concrete input holding one rating and one trust
edge, a run under the canonical schedule and a run whose every shuffle
delivers keys and grouped values in reversed order produce the same result. -/
theorem pipeline_deterministic_witness :
    pipelineRunW id (fun _ => id) id (fun _ => id) id (fun _ => id)
        defaultOptions ["i1\tu1\t4\ts\tc\tm\tt\ts2", "t2\tu1\t1\tc"] =
      pipelineRunW (fun ks => ks.reverse) (fun _ vs => vs.reverse)
        (fun ks => ks.reverse) (fun _ vs => vs.reverse)
        (fun ks => ks.reverse) (fun _ vs => vs.reverse)
        defaultOptions ["i1\tu1\t4\ts\tc\tm\tt\ts2", "t2\tu1\t1\tc"] :=
  pipeline_deterministic defaultOptions
    ["i1\tu1\t4\ts\tc\tm\tt\ts2", "t2\tu1\t1\tc"]
    id (fun ks => ks.reverse) (fun _ => id) (fun _ vs => vs.reverse)
    id (fun ks => ks.reverse) (fun _ => id) (fun _ vs => vs.reverse)
    id (fun ks => ks.reverse) (fun _ => id) (fun _ vs => vs.reverse)
    (fun ks => List.Perm.refl ks) (fun ks => List.reverse_perm ks)
    (fun _ vs => List.Perm.refl vs) (fun _ vs => List.reverse_perm vs)
    (fun ks => List.Perm.refl ks) (fun ks => List.reverse_perm ks)
    (fun _ vs => List.Perm.refl vs) (fun _ vs => List.reverse_perm vs)
    (fun ks => List.Perm.refl ks) (fun ks => List.reverse_perm ks)
    (fun _ vs => List.Perm.refl vs) (fun _ vs => List.reverse_perm vs)

end RecSys
